import Mathlib

/-!
Verification of the request-handling and persistence-mapping layer of a
small todo service (src/main.go). The handlers are embedded as pure
functions: the store is modelled by the results its operations return and
by the trace of operations a handler issues, and each handler maps its
inputs (decoded body, generated identifier, store results) to an HTTP
response plus that trace.
-/

set_option maxRecDepth 4000

namespace TodoApp

/-! ## Identifier codec (mgo bson.ObjectId) -/

/-- An ObjectId is a sequence of bytes (12 of them when well formed),
mirroring mgo's `type ObjectId string` of raw bytes. -/
abbrev ObjectId := List Nat

/-- Value of one hex character, mirroring encoding/hex digit decoding;
fails on a non-hex character. -/
def hexVal (c : Char) : Option Nat :=
  if c.isDigit then some (c.toNat - Char.toNat (Char.ofNat 48))
  else if Char.ofNat 97 ≤ c ∧ c ≤ Char.ofNat 102 then
    some (c.toNat - Char.toNat (Char.ofNat 97) + 10)
  else if Char.ofNat 65 ≤ c ∧ c ≤ Char.ofNat 70 then
    some (c.toNat - Char.toNat (Char.ofNat 65) + 10)
  else none

/-- hex.DecodeString over the character list: consumes characters two at a
time, producing one byte per pair; fails on odd length or a non-hex
character. -/
def decodeHexChars : List Char → Option (List Nat)
  | [] => some []
  | [_] => none
  | c1 :: c2 :: rest =>
    match hexVal c1, hexVal c2, decodeHexChars rest with
    | some h, some l, some bs => some ((h * 16 + l) :: bs)
    | _, _, _ => none

/-- One byte to two lowercase hex characters, as encoding/hex encodes. -/
def hexPair (b : Nat) : List Char :=
  let digit := fun n =>
    if n < 10 then Char.ofNat (48 + n) else Char.ofNat (97 + (n - 10))
  [digit (b / 16), digit (b % 16)]

/-- mgo (ObjectId).Hex: hex.EncodeToString of the raw bytes. -/
def ObjectId.hex (oid : ObjectId) : String :=
  String.mk (List.flatten (oid.map hexPair))

/-- mgo bson.IsObjectIdHex: the string has length 24 and hex-decodes to 12
bytes. -/
def isObjectIdHex (s : String) : Bool :=
  if s.length ≠ 24 then false
  else
    match decodeHexChars s.toList with
    | some d => d.length == 12
    | none => false

/-- mgo bson.ObjectIdHex: hex-decodes the string to 12 bytes; `none`
models the panic branch taken when the decode fails or the length is
wrong. -/
def objectIdHex (s : String) : Option ObjectId :=
  match decodeHexChars s.toList with
  | some d => if d.length == 12 then some d else none
  | none => none

/-- strings.TrimSpace: drops leading and trailing whitespace characters. -/
def trimSpace (s : String) : String :=
  String.mk
    (((s.toList.dropWhile Char.isWhitespace).reverse.dropWhile
        Char.isWhitespace).reverse)

/-! ## Data model (main.go lines 29-43) -/

/-- Wire-form task, struct `todo`: time.Time is modelled as a Nat tick
count whose zero value is 0. -/
structure Todo where
  id : String
  title : String
  completed : Bool
  createdAt : Nat
  deriving Repr, DecidableEq

/-- Persisted record, struct `todoModel`. -/
structure TodoModel where
  id : ObjectId
  title : String
  completed : Bool
  createdAt : Nat
  deriving Repr, DecidableEq

/-- JSON body of a create request: each field either present or absent. -/
structure TodoBody where
  id : Option String
  title : Option String
  completed : Option Bool
  createdAt : Option Nat
  deriving Repr, DecidableEq

/-- encoding/json decode of a body into a zero-valued `todo` struct:
absent fields keep Go zero values ("", false, zero time). -/
def decodeTodo (b : TodoBody) : Todo :=
  { id := b.id.getD ""
    title := b.title.getD ""
    completed := b.completed.getD false
    createdAt := b.createdAt.getD 0 }

/-- Record construction at main.go lines 127-132 (the mapper the spec
calls toRecord): copies title, completed, createdAt; installs the
generated identifier. -/
def toRecord (t : Todo) (gen : ObjectId) : TodoModel :=
  { id := gen
    title := t.title
    completed := t.completed
    createdAt := t.createdAt }

/-- Wire construction at main.go lines 165-172 (the mapper the spec calls
toWire): copies title, completed, createdAt; encodes the identifier via
Hex. -/
def toWire (tm : TodoModel) : Todo :=
  { id := ObjectId.hex tm.id
    title := tm.title
    completed := tm.completed
    createdAt := tm.createdAt }

/-! ## Responses -/

/-- JSON values, enough to state the renderer.M payloads the handlers
emit. -/
inductive Json where
  | null : Json
  | str : String → Json
  | bool : Bool → Json
  | num : Nat → Json
  | arr : List Json → Json
  | obj : List (String × Json) → Json
  deriving Repr

/-- JSON marshalling of a wire task per its json tags. -/
def todoJson (t : Todo) : Json :=
  .obj [("id", .str t.id), ("title", .str t.title),
        ("completed", .bool t.completed), ("createdAt", .num t.createdAt)]

/-- HTTP response: status code plus optional JSON body (`none` when the
handler writes nothing, which net/http sends as status 200 with an empty
body). -/
structure Response where
  status : Nat
  body : Option Json
  deriving Repr

/-- A store operation a handler can issue. -/
inductive StoreOp where
  | insert : TodoModel → StoreOp
  | findAll : StoreOp
  | removeId : ObjectId → StoreOp
  deriving Repr, DecidableEq

/-- Effect of one store operation on the collection contents. -/
def applyOp (docs : List TodoModel) : StoreOp → List TodoModel
  | .insert tm => docs ++ [tm]
  | .findAll => docs
  | .removeId oid => docs.filter (fun tm => tm.id ≠ oid)

/-- Effect of a handler's operation trace on the collection contents. -/
def applyOps (ops : List StoreOp) (docs : List TodoModel) : List TodoModel :=
  ops.foldl applyOp docs

/-- What a handler produced: the response written and the store
operations issued, in order. -/
structure HandlerResult where
  response : Response
  ops : List StoreOp
  deriving Repr

/-! ## Handlers (main.go lines 110-209) -/

/-- createTodo (main.go lines 110-148), as a function of the body-decode
result, the identifier generated by bson.NewObjectId, and the result of
the store insert. -/
def createTodo (decoded : Except String Todo) (gen : ObjectId)
    (insertRes : Except String Unit) : HandlerResult :=
  match decoded with
  | .error e =>
    { response := { status := 102, body := some (.str e) }, ops := [] }
  | .ok t =>
    if t.title = "" then
      { response :=
          { status := 102
            body := some (.obj [("error", .str "The title cannot be empty")]) }
        ops := [] }
    else
      let tm := toRecord t gen
      match insertRes with
      | .error e =>
        { response :=
            { status := 102
              body := some (.obj [("message", .str "Failed to create TODO"),
                                  ("error", .str e)]) }
          ops := [.insert tm] }
      | .ok _ =>
        { response :=
            { status := 201
              body := some (.obj [("message", .str "TODO created successfully"),
                                  ("todo_id", .str (ObjectId.hex tm.id))]) }
          ops := [.insert tm] }

/-- fetchTodo (main.go lines 150-179), as a function of the result of the
Find(bson.M{}).All query. The wire list is built exactly as the source's
append loop does, starting from the empty (non-nil) slice. -/
def fetchTodo (findRes : Except String (List TodoModel)) : HandlerResult :=
  match findRes with
  | .error e =>
    { response :=
        { status := 102
          body := some (.obj [("message", .str "Failed to fetch todo"),
                              ("error", .str e)]) }
      ops := [.findAll] }
  | .ok todos =>
    let todoList := todos.foldl (fun acc t => acc ++ [toWire t]) []
    { response :=
        { status := 200
          body := some (.obj [("data", .arr (todoList.map todoJson))]) }
      ops := [.findAll] }

/-- updateTodo (main.go lines 181-183): the handler body is empty, so it
issues no store operation and net/http responds 200 with an empty body. -/
def updateTodo : HandlerResult :=
  { response := { status := 200, body := none }, ops := [] }

/-- Outcome of the delete handler: either a response was written (with
the operations issued), or bson.ObjectIdHex panicked on the given
string. -/
inductive DeleteOutcome where
  | responded : Response → List StoreOp → DeleteOutcome
  | panicked : String → DeleteOutcome
  deriving Repr

/-- deleteTodo (main.go lines 185-209), as a function of the raw id path
parameter and the result of the store RemoveId call. Note the source's
guard: it responds 400 when IsObjectIdHex is TRUE and proceeds to
bson.ObjectIdHex when it is false. -/
def deleteTodo (idParam : String) (removeRes : Except String Unit) :
    DeleteOutcome :=
  let id := trimSpace idParam
  if isObjectIdHex id then
    .responded { status := 400
                 body := some (.obj [("error", .str "Invalid URL request")]) } []
  else
    match objectIdHex id with
    | none => .panicked id
    | some oid =>
      match removeRes with
      | .error e =>
        .responded { status := 102
                     body := some (.obj [("message", .str "Failed to remove TODO"),
                                         ("error", .str e)]) } [.removeId oid]
      | .ok _ =>
        .responded { status := 200, body := none } [.removeId oid]

/-! ## Sample inputs used by witnesses -/

/-- A concrete wire task with a non-empty title. -/
def sampleTodo : Todo :=
  { id := "", title := "buy milk", completed := false, createdAt := 5 }

/-- A concrete 12-byte ObjectId. -/
def sampleOid : ObjectId :=
  [80, 127, 25, 30, 129, 12, 25, 114, 157, 232, 96, 234]

/-- A concrete create-request body with a title and no createdAt field. -/
def sampleBody : TodoBody :=
  { id := none, title := some "buy milk", completed := none, createdAt := none }

/-! ## Helper lemmas -/

theorem foldl_append_toWire (recs : List TodoModel) (acc : List Todo) :
    recs.foldl (fun a t => a ++ [toWire t]) acc = acc ++ recs.map toWire := by
  induction recs generalizing acc with
  | nil => simp
  | cons r rs ih => simp [List.foldl_cons, ih]

theorem decodeHexChars_length : ∀ (l : List Char) (d : List Nat),
    decodeHexChars l = some d → 2 * d.length = l.length
  | [], d, h => by
    simp [decodeHexChars] at h
    subst h
    rfl
  | [c], d, h => by
    simp [decodeHexChars] at h
  | c1 :: c2 :: rest, d, h => by
    rw [decodeHexChars] at h
    cases h1 : hexVal c1 <;> rw [h1] at h
    case none => exact absurd h (by simp)
    cases h2 : hexVal c2 <;> rw [h2] at h
    case none => exact absurd h (by simp)
    cases h3 : decodeHexChars rest <;> rw [h3] at h
    case none => exact absurd h (by simp)
    case some bs =>
      have hrest := decodeHexChars_length rest bs h3
      simp only [Option.some.injEq] at h
      subst h
      simp only [List.length_cons, List.length_cons]
      omega

theorem objectIdHex_eq_none (s : String) (h : isObjectIdHex s = false) :
    objectIdHex s = none := by
  unfold objectIdHex
  cases hd : decodeHexChars s.toList with
  | none => rfl
  | some d =>
    have hne : d.length ≠ 12 := by
      intro h12
      have hlen : 2 * d.length = s.toList.length := decodeHexChars_length _ _ hd
      have hslen : s.length = 24 := by
        have htl : s.toList.length = s.length := rfl
        omega
      have hd2 : decodeHexChars s.data = some d := hd
      have : isObjectIdHex s = true := by
        unfold isObjectIdHex
        simp [hslen, hd2, h12]
      rw [this] at h
      exact Bool.noConfusion h
    simp [hne]

/-! ## Claims -/

/-- Claim C2: a create request whose decoded body has an empty title is
answered with the payload saying the title cannot be empty, and the
handler issues no store operation (insert is never called). -/
theorem createTodo_empty_title_rejected (t : Todo) (gen : ObjectId)
    (insertRes : Except String Unit) (h : t.title = "") :
    createTodo (Except.ok t) gen insertRes =
      { response :=
          { status := 102
            body := some (.obj [("error", .str "The title cannot be empty")]) }
        ops := [] } := by
  simp [createTodo, h]

/-- Witness for C2 at a concrete empty-title task. -/
theorem createTodo_empty_title_rejected_witness :
    ({ id := "", title := "", completed := false, createdAt := 0 } : Todo).title
        = "" ∧
    createTodo
        (Except.ok { id := "", title := "", completed := false, createdAt := 0 })
        sampleOid (Except.ok ()) =
      { response :=
          { status := 102
            body := some (.obj [("error", .str "The title cannot be empty")]) }
        ops := [] } :=
  ⟨rfl, createTodo_empty_title_rejected _ _ _ rfl⟩

/-- Claim C3: for a wire task with non-empty title, mapping to a record
with a generated id and back to wire form preserves title, completed and
createdAt, and populates the wire id with the hex encoding of the
generated id. -/
theorem toWire_toRecord_roundtrip (t : Todo) (gen : ObjectId)
    (h : t.title ≠ "") :
    (toWire (toRecord t gen)).title = t.title ∧
    (toWire (toRecord t gen)).completed = t.completed ∧
    (toWire (toRecord t gen)).createdAt = t.createdAt ∧
    (toWire (toRecord t gen)).id = ObjectId.hex gen :=
  ⟨rfl, rfl, rfl, rfl⟩

/-- Witness for C3 at a concrete task and id. -/
theorem toWire_toRecord_roundtrip_witness :
    sampleTodo.title ≠ "" ∧
    ((toWire (toRecord sampleTodo sampleOid)).title = sampleTodo.title ∧
     (toWire (toRecord sampleTodo sampleOid)).completed = sampleTodo.completed ∧
     (toWire (toRecord sampleTodo sampleOid)).createdAt = sampleTodo.createdAt ∧
     (toWire (toRecord sampleTodo sampleOid)).id = ObjectId.hex sampleOid) :=
  ⟨by decide, toWire_toRecord_roundtrip sampleTodo sampleOid (by decide)⟩

/-- Claim C4: the update handler issues no store operation, leaves the
collection contents unchanged, and responds 200 with an empty body. -/
theorem updateTodo_is_noop :
    updateTodo.ops = [] ∧
    (∀ docs : List TodoModel, applyOps updateTodo.ops docs = docs) ∧
    updateTodo.response = { status := 200, body := none } :=
  ⟨rfl, fun _ => rfl, rfl⟩

/-- Claim C5: when findAll succeeds with no records, the list handler
responds 200 with a data field holding the empty array, which is a value
distinct from JSON null. -/
theorem fetchTodo_empty_gives_empty_array :
    (fetchTodo (Except.ok [])).response =
      { status := 200, body := some (.obj [("data", .arr [])]) } ∧
    Json.arr [] ≠ Json.null :=
  ⟨rfl, fun hcon => Json.noConfusion hcon⟩

/-- Claim C6: a create request with non-empty title whose insert succeeds
is answered 201 with the success message and todo_id equal to the hex
encoding of the generated identifier of the inserted record. -/
theorem createTodo_success_response (t : Todo) (gen : ObjectId)
    (h : t.title ≠ "") :
    createTodo (Except.ok t) gen (Except.ok ()) =
      { response :=
          { status := 201
            body := some (.obj [("message", .str "TODO created successfully"),
                                ("todo_id", .str (ObjectId.hex gen))]) }
        ops := [.insert (toRecord t gen)] } := by
  simp [createTodo, h, toRecord]

/-- Witness for C6 at a concrete task and id. -/
theorem createTodo_success_response_witness :
    sampleTodo.title ≠ "" ∧
    createTodo (Except.ok sampleTodo) sampleOid (Except.ok ()) =
      { response :=
          { status := 201
            body := some (.obj [("message", .str "TODO created successfully"),
                                ("todo_id", .str (ObjectId.hex sampleOid))]) }
        ops := [.insert (toRecord sampleTodo sampleOid)] } :=
  ⟨by decide, createTodo_success_response sampleTodo sampleOid (by decide)⟩

/-- Claim C7: when insert fails the create handler answers with the
failed-to-create payload carrying the store error; the response does not
depend on the generated identifier; and decode errors and validation
errors are likewise answered with the processing status and no store
operation, so no error branch escapes the handler. -/
theorem createTodo_errors_recovered (t : Todo) (gen : ObjectId)
    (e : String) (h : t.title ≠ "") :
    (createTodo (Except.ok t) gen (Except.error e)).response =
      { status := 102
        body := some (.obj [("message", .str "Failed to create TODO"),
                            ("error", .str e)]) } ∧
    (∀ gen2 : ObjectId,
      (createTodo (Except.ok t) gen2 (Except.error e)).response =
        (createTodo (Except.ok t) gen (Except.error e)).response) ∧
    (∀ derr : String,
      (createTodo (Except.error derr) gen (Except.ok ())).response =
        { status := 102, body := some (.str derr) } ∧
      (createTodo (Except.error derr) gen (Except.ok ())).ops = []) ∧
    (∀ t2 : Todo, t2.title = "" →
      (createTodo (Except.ok t2) gen (Except.ok ())).response.status = 102 ∧
      (createTodo (Except.ok t2) gen (Except.ok ())).ops = []) := by
  refine ⟨by simp [createTodo, h], fun gen2 => by simp [createTodo, h],
    fun derr => ⟨rfl, rfl⟩, fun t2 h2 => ?_⟩
  constructor <;> simp [createTodo, h2]

/-- Witness for C7 at a concrete task, id and store error. -/
theorem createTodo_errors_recovered_witness :
    sampleTodo.title ≠ "" ∧
    (createTodo (Except.ok sampleTodo) sampleOid
        (Except.error "connection reset")).response =
      { status := 102
        body := some (.obj [("message", .str "Failed to create TODO"),
                            ("error", .str "connection reset")]) } :=
  ⟨by decide,
    (createTodo_errors_recovered sampleTodo sampleOid "connection reset"
      (by decide)).1⟩

/-- Claim C8: when findAll succeeds, the list handler maps every record
to wire form and the data array holds their JSON forms in the order of
the result of the store query, one element per record. -/
theorem fetchTodo_preserves_order (recs : List TodoModel) :
    fetchTodo (Except.ok recs) =
      { response :=
          { status := 200
            body := some (.obj [("data",
              .arr ((recs.map toWire).map todoJson))]) }
        ops := [.findAll] } := by
  simp [fetchTodo, foldl_append_toWire]

/-- Claim C1 (bug in the reference delete handler): at the syntactically
valid id the handler responds 400 Invalid URL request and issues no store
operation instead of decoding the id and calling RemoveId; at a
syntactically invalid id it passes the guard and hits the decode panic. -/
theorem deleteTodo_polarity_inverted :
    deleteTodo "507f191e810c19729de860ea" (Except.ok ()) =
      DeleteOutcome.responded
        { status := 400
          body := some (.obj [("error", .str "Invalid URL request")]) }
        [] ∧
    deleteTodo "not-an-id" (Except.ok ()) =
      DeleteOutcome.panicked "not-an-id" :=
  ⟨rfl, rfl⟩

/-- Claim C9: every request whose trimmed id is not valid ObjectId hex
passes the guard of the delete handler and reaches bson.ObjectIdHex with
that invalid string, where the decode panics; the guard never establishes
the precondition of the decode. -/
theorem deleteTodo_invalid_id_reaches_decode (idParam : String)
    (removeRes : Except String Unit)
    (h : isObjectIdHex (trimSpace idParam) = false) :
    deleteTodo idParam removeRes =
      DeleteOutcome.panicked (trimSpace idParam) := by
  unfold deleteTodo
  simp [h, objectIdHex_eq_none _ h]

/-- Witness for C9 at the concrete invalid id. -/
theorem deleteTodo_invalid_id_reaches_decode_witness :
    isObjectIdHex (trimSpace "not-an-id") = false ∧
    deleteTodo "not-an-id" (Except.error "not found") =
      DeleteOutcome.panicked (trimSpace "not-an-id") :=
  ⟨by decide,
    deleteTodo_invalid_id_reaches_decode "not-an-id" (Except.error "not found")
      (by decide)⟩

/-- Claim C10: the record a successful create inserts carries exactly the
createdAt decoded from the client body, and when the body has no
createdAt field the decoded value is the zero timestamp, so the zero
timestamp is what gets persisted. -/
theorem createTodo_createdAt_from_client (b : TodoBody) (gen : ObjectId)
    (h : (decodeTodo b).title ≠ "") :
    (createTodo (Except.ok (decodeTodo b)) gen (Except.ok ())).ops =
      [.insert (toRecord (decodeTodo b) gen)] ∧
    (toRecord (decodeTodo b) gen).createdAt = (decodeTodo b).createdAt ∧
    (b.createdAt = none → (toRecord (decodeTodo b) gen).createdAt = 0) := by
  refine ⟨by simp [createTodo, h], rfl, fun hnone => ?_⟩
  simp [toRecord, decodeTodo, hnone]

/-- Witness for C10 at a concrete body with no createdAt field. -/
theorem createTodo_createdAt_from_client_witness :
    (decodeTodo sampleBody).title ≠ "" ∧
    (toRecord (decodeTodo sampleBody) sampleOid).createdAt = 0 :=
  ⟨by decide,
    (createTodo_createdAt_from_client sampleBody sampleOid (by decide)).2.2 rfl⟩

end TodoApp
